import Mathlib

/-!
Verification development for the ilp-plugin-rddn repository.

The definitions below are a shallow embedding of the JavaScript sources
(src/lib/plugin.js, src/lib/errors.js, src/lib/transaction.js) of the
ilp-plugin-rddn ledger adapter.  Pure string and list manipulations are
translated directly; stateful pieces (the heartbeat, the retry loop, the
event emitter) become explicit state passing and event traces; JavaScript
exceptions become Except values; the dynamically typed fields that can hold
the JavaScript value undefined are modelled with an explicit JsVal type.
External library functions used by the sources (uuid-parse unparse, Buffer
hex decoding, base64url, Date toISOString) are modelled from their documented
behaviour, since their code is not part of this repository.
-/

namespace RddnPlugin

/-! ## Errors (src/lib/errors.js) and node rejection classification -/

/-- Error values surfaced by the plugin operations: PastSequenceError from
src/lib/errors.js, or the original node rejection carried verbatim with its
message text. -/
inductive PluginError where
  | pastSequenceError
  | other (msg : String)
deriving DecidableEq

/-- Whether the first list occurs at the head of the second list. -/
def matchesAt (needle hay : List Char) : Bool :=
  match needle, hay with
  | n :: ns, h :: hs => n == h && matchesAt ns hs
  | [], _ => true
  | _, [] => false

/-- Helper for strContains: scan the haystack left to right. -/
def strContainsAux (needle : List Char) : List Char → Bool
  | [] => needle.isEmpty
  | c :: rest => matchesAt needle (c :: rest) || strContainsAux needle rest

/-- JavaScript hay.indexOf(needle) is greater or equal to zero, i.e. substring
containment, as used by the catch blocks in plugin.js. -/
def strContains (hay needle : String) : Bool :=
  strContainsAux needle.data hay.data

/-- Catch block of sendTransfer, plugin.js lines 473-479: only the pattern
"replacement transaction underpriced" is reclassified as PastSequenceError;
every other rejection, including "known transaction", is rethrown verbatim. -/
def sendTransferCatch (msg : String) : PluginError :=
  if strContains msg "replacement transaction underpriced" then
    PluginError.pastSequenceError
  else
    PluginError.other msg

/-- Catch block of the private rejectIncomingTransfer helper, plugin.js lines
265-275: both "replacement transaction underpriced" and "known transaction"
are reclassified as PastSequenceError, anything else is rethrown verbatim. -/
def rejectIncomingCatch (msg : String) : PluginError :=
  if strContains msg "replacement transaction underpriced" then
    PluginError.pastSequenceError
  else if strContains msg "known transaction" then
    PluginError.pastSequenceError
  else
    PluginError.other msg

/-- Catch block of the private fulfillCondition helper, plugin.js lines
303-313: identical classification to the reject helper. -/
def fulfillConditionCatch (msg : String) : PluginError :=
  if strContains msg "replacement transaction underpriced" then
    PluginError.pastSequenceError
  else if strContains msg "known transaction" then
    PluginError.pastSequenceError
  else
    PluginError.other msg

/-! ## Submission operations (plugin.js sendTransfer, the private fulfill and
reject helpers) as functions of the node submission outcome.

Each operation performs at most one call into src/lib/transaction.js (which
issues the network write); the call outcome is a parameter: Except.ok for an
accepted submission, Except.error msg for a node rejection with message text
msg.  The returned action list records whether the submitter was invoked. -/

/-- One call into the Transaction module (a signed network submission). -/
inductive SubmitAction where
  | submitterCall
deriving DecidableEq

/-- sendTransfer, plugin.js lines 468-482.  It first checks
`if (!this.web3 && !this.extWeb3) throw new Error(must be connected)`
and only then invokes Transaction.sendTransfer. -/
def sendTransferOp (web3Bound extWeb3Bound : Bool)
    (nodeResult : Except String Unit) : List SubmitAction × Except PluginError Unit :=
  if !web3Bound && !extWeb3Bound then
    ([], Except.error (PluginError.other "must be connected"))
  else
    match nodeResult with
    | Except.ok _ => ([SubmitAction.submitterCall], Except.ok ())
    | Except.error msg => ([SubmitAction.submitterCall], Except.error (sendTransferCatch msg))

/-- The private fulfillCondition helper, plugin.js lines 300-315.  It has no
connectivity precheck: Transaction.fulfillCondition is invoked directly (the
web3Bound and extWeb3Bound arguments are accepted for symmetry with
sendTransferOp and only forwarded to the submitter as in the source). -/
def fulfillConditionOp (_web3Bound _extWeb3Bound : Bool)
    (nodeResult : Except String Unit) : List SubmitAction × Except PluginError Unit :=
  match nodeResult with
  | Except.ok _ => ([SubmitAction.submitterCall], Except.ok ())
  | Except.error msg => ([SubmitAction.submitterCall], Except.error (fulfillConditionCatch msg))

/-- The private rejectIncomingTransfer helper, plugin.js lines 262-277.  Like
the fulfill helper it has no connectivity precheck. -/
def rejectIncomingTransferOp (_web3Bound _extWeb3Bound : Bool)
    (nodeResult : Except String Unit) : List SubmitAction × Except PluginError Unit :=
  match nodeResult with
  | Except.ok _ => ([SubmitAction.submitterCall], Except.ok ())
  | Except.error msg => ([SubmitAction.submitterCall], Except.error (rejectIncomingCatch msg))

/-! ## Retry coordinator (plugin.js rejectIncomingTransfer lines 248-260 and
fulfillCondition lines 286-298)

Both public operations wrap their private helper in
`try { await helper } catch (error) { if (error instanceof PastSequenceError)
{ this._sleep(500); await <the same public call with identical arguments> }
else throw error }`.

The statement `this._sleep(500)` creates a 500 ms timer promise but has no
await in front of it, so the recursive call is issued immediately: zero
milliseconds are awaited between the failed attempt and the re-issue.  The
trace below records both the scheduled sleep (500) and the milliseconds
actually awaited before the re-issue (0). -/

/-- Trace of one run of the retry loop over a list of successive attempt
outcomes.  outcome = none means every provided attempt ended in
PastSequenceError and the loop is still re-issuing (unbounded retry). -/
structure RetryTrace where
  attempts : Nat
  sleepsScheduledMs : List Nat
  awaitedBeforeRetryMs : List Nat
  outcome : Option (Except PluginError Unit)

/-- The retry loop shared (textually duplicated) by rejectIncomingTransfer and
fulfillCondition, evaluated against a list of attempt outcomes. -/
def retryLoop : List (Except PluginError Unit) → RetryTrace
  | [] => ⟨0, [], [], none⟩
  | Except.ok _ :: _ => ⟨1, [], [], some (Except.ok ())⟩
  | Except.error PluginError.pastSequenceError :: rest =>
      let t := retryLoop rest
      ⟨t.attempts + 1, 500 :: t.sleepsScheduledMs, 0 :: t.awaitedBeforeRetryMs, t.outcome⟩
  | Except.error (PluginError.other msg) :: _ =>
      ⟨1, [], [], some (Except.error (PluginError.other msg))⟩

/-! ## Connection manager heartbeat (plugin.js _heartbeat, lines 134-179)

One interval tick either attempts reconnection (when this.web3 is null:
flip the selected provider between primary and secondary, open a socket to
the flipped provider) or probes liveness (when this.web3 is bound: on
isListening failure, disconnect the current provider, null out web3, flip
the provider, open a socket to the flipped provider).  Exactly one of the
two branches runs per tick because the first branch does not bind web3. -/

/-- Connection state owned by the plugin: the two configured endpoints, the
currently selected provider and whether this.web3 is bound. -/
structure HeartbeatState where
  primaryProvider : String
  secondaryProvider : String
  provider : String
  web3Bound : Bool
deriving DecidableEq

/-- Endpoint flip performed by both heartbeat branches:
if this.provider is the primary, select the secondary, else the primary. -/
def flipProvider (s : HeartbeatState) : String :=
  if s.provider = s.primaryProvider then s.secondaryProvider else s.primaryProvider

/-- One heartbeat tick.  livenessOk is the outcome of the isListening probe
(only consulted when connected).  Returns the new state and the endpoint
targeted by the fresh connection attempt, if one is made. -/
def heartbeatTick (s : HeartbeatState) (livenessOk : Bool) :
    HeartbeatState × Option String :=
  if !s.web3Bound then
    let p := flipProvider s
    ({ s with provider := p }, some p)
  else if livenessOk then
    (s, none)
  else
    let p := flipProvider s
    ({ s with web3Bound := false, provider := p }, some p)

/-! ## Transfer objects and the event router -/

/-- A dynamically typed JavaScript value as it appears in the Transfer fields
built by plugin.js: a string, a number, or undefined (the result of indexing
past the end of the stateToName and directionToName lookup arrays). -/
inductive JsVal where
  | str (s : String)
  | num (n : Nat)
  | undef
deriving DecidableEq

/-- JavaScript string coercion of a JsVal, as performed by the string
concatenation building the emitted event names. -/
def jsValToStr : JsVal → String
  | JsVal.str s => s
  | JsVal.num n => toString n
  | JsVal.undef => "undefined"

/-- The custom field of a projected Transfer: the empty string in the
not-found branch of _getRddnTransfer, or the object with moneyId and the
named deposit or withdraw direction otherwise. -/
inductive CustomVal where
  | emptyStr
  | obj (moneyId : String) (direction : JsVal)
deriving DecidableEq

/-- The Transfer object produced by _getRddnTransfer (plugin.js lines
335-374) and passed around by the event router.  ledger and direction are
the properties assigned only later, by _processUpdate and by
forceEmitPrepare respectively; the projection leaves them absent (none). -/
structure ProjTransfer where
  id : String
  fromAccount : String
  toAccount : String
  amount : JsVal
  ilp : String
  executionCondition : String
  expiresAt : String
  custom : CustomVal
  state : JsVal
  ledger : Option String := none
  direction : Option String := none
deriving DecidableEq

/-- One emitted plugin event: the event name, the Transfer argument, and the
optional extra arguments (fulfillment string, ilp payload) passed in the
fulfill cases. -/
structure Emit where
  name : String
  transfer : ProjTransfer
  fulfillment : Option String
  ilpArg : Option String
deriving DecidableEq

/-- _processUpdate (plugin.js lines 187-208).  The two direction checks are
sequential assignments, so when both endpoints equal the self account the
second assignment (incoming) overwrites the first (outgoing).  Without a
direction, a state-named event_{state} is emitted with the unmodified
Transfer; with a direction, transfer.ledger is stamped with the address
prefix and {dir}_{state} is emitted, adding the fulfillment and
transfer.ilp arguments in the fulfill case. -/
def processUpdate (self pfx : String) (t : ProjTransfer)
    (fulfillment : Option String) : List Emit :=
  let d1 : Option String := if t.fromAccount = self then some "outgoing" else none
  let d2 : Option String := if t.toAccount = self then some "incoming" else d1
  match d2 with
  | none =>
      if t.state = JsVal.str "fulfill" then
        [⟨"event_fulfill", t, fulfillment, none⟩]
      else
        [⟨"event_" ++ jsValToStr t.state, t, none, none⟩]
  | some dir =>
      let t2 := { t with ledger := some pfx }
      if t2.state = JsVal.str "fulfill" then
        [⟨dir ++ "_" ++ jsValToStr t2.state, t2, fulfillment, some t2.ilp⟩]
      else
        [⟨dir ++ "_" ++ jsValToStr t2.state, t2, none, none⟩]

/-- Dispatch as the amended claim C1 states it: exactly one event; when
transfer.to equals the self account the event is incoming_{state} (the to
check takes precedence when both endpoints equal the self account);
otherwise when transfer.from equals the self account it is
outgoing_{state}; in both directed cases transfer.ledger is stamped with
the address prefix and, only for the fulfill state, the fulfillment and the
transfer ilp payload ride along as extra arguments; when neither endpoint
matches, the undirected event_{state} carries the unmodified Transfer (plus
the fulfillment in the fulfill case) with no directional field set. -/
def dispatchSpec (self pfx : String) (t : ProjTransfer)
    (fulfillment : Option String) : List Emit :=
  if t.toAccount = self then
    if t.state = JsVal.str "fulfill" then
      [⟨"incoming_" ++ jsValToStr t.state, { t with ledger := some pfx }, fulfillment, some t.ilp⟩]
    else
      [⟨"incoming_" ++ jsValToStr t.state, { t with ledger := some pfx }, none, none⟩]
  else if t.fromAccount = self then
    if t.state = JsVal.str "fulfill" then
      [⟨"outgoing_" ++ jsValToStr t.state, { t with ledger := some pfx }, fulfillment, some t.ilp⟩]
    else
      [⟨"outgoing_" ++ jsValToStr t.state, { t with ledger := some pfx }, none, none⟩]
  else
    if t.state = JsVal.str "fulfill" then
      [⟨"event_fulfill", t, fulfillment, none⟩]
    else
      [⟨"event_" ++ jsValToStr t.state, t, none, none⟩]

/-! ## Forced re-emission (plugin.js forceEmitPrepare, lines 417-434)

forceEmitPrepare tests
`transfer.from === this.getAccount() || _.includes(this.outgoingList, transfer.from.toLowerCase())`
and then
`transfer.to === this.getAccount() || _.includes(this.incomingList, transfer.to.toLowerCase())`.
plugin.js requires base64url, web3, eventemitter2, debug, its errors and
transaction modules and uuid-parse; the identifier `_` (lodash) is never
bound and this.outgoingList and this.incomingList are never assigned.  By
short-circuit evaluation, the right operand is only reached when the
strict-equality test on the left is false, and evaluating it throws
ReferenceError because `_` is not defined.  The only execution that avoids
the unbound identifier is the one where both endpoint tests succeed. -/

/-- A JavaScript runtime error raised while evaluating plugin code. -/
inductive JsRuntimeError where
  | referenceError (ident : String)
deriving DecidableEq

/-- forceEmitPrepare given the successfully resolved Transfer: the returned
Bool is the `return true` and `return false` of the source, the Emit list
the events emitted before returning. -/
def forceEmitPrepareOp (self : String) (t : ProjTransfer) :
    Except JsRuntimeError (Bool × List Emit) :=
  if t.fromAccount = self then
    -- direction becomes outgoing; the second if still evaluates its condition
    if t.toAccount = self then
      -- direction becomes incoming and overwrites; emit and return true
      Except.ok (true,
        [⟨"incoming_prepare", { t with direction := some "incoming" }, none, none⟩])
    else
      -- transfer.to differs, so _.includes is evaluated: `_` is unbound
      Except.error (JsRuntimeError.referenceError "_")
  else
    -- transfer.from differs, so _.includes is evaluated: `_` is unbound
    Except.error (JsRuntimeError.referenceError "_")

/-! ## Hex digits, Buffer hex decoding, uuid-parse unparse, base64url

transaction.js builds ledger identifiers with uuidToHex, which prepends the
0x marker to the uuid string with every dash removed, and plugin.js converts
them back with uuidParse.unparse applied to the hex-decoded bytes of the
identifier without its first two characters.
Buffer.from with the hex encoding decodes hexadecimal pairs case-insensitively and stops
silently at the first character pair that is not valid hexadecimal; the
uuid-parse unparse of a 16 byte buffer prints the bytes in lowercase
hexadecimal with dashes after bytes 4, 6, 8 and 10. -/

/-- Numeric value of one hexadecimal digit, case-insensitive, as accepted by
Buffer.from with the hex encoding. -/
def hexVal (c : Char) : Option Nat :=
  if '0' ≤ c ∧ c ≤ '9' then some (c.toNat - ('0').toNat)
  else if 'a' ≤ c ∧ c ≤ 'f' then some (c.toNat - ('a').toNat + 10)
  else if 'A' ≤ c ∧ c ≤ 'F' then some (c.toNat - ('A').toNat + 10)
  else none

/-- Lowercase hexadecimal digit printed for a value below 16 (the encoding
direction only ever receives such values). -/
def toHexChar (n : Nat) : Char :=
  ("0123456789abcdef" : String).data.getD n '?'

/-- Round trip check for a single digit: hexVal succeeds with a byte value
below 16 whose lowercase rendering is the digit itself. -/
def hexRoundOk (c : Char) : Bool :=
  ((hexVal c).map toHexChar == some c) && decide ((hexVal c).getD 16 < 16)

/-- The two lowercase hexadecimal digits of one byte. -/
def byteToHexChars (b : Nat) : List Char :=
  [toHexChar (b / 16), toHexChar (b % 16)]

/-- Byte value of one hexadecimal character pair. -/
def hexPairVal (c1 c2 : Char) : Option Nat :=
  match hexVal c1, hexVal c2 with
  | some h, some l => some (16 * h + l)
  | _, _ => none

/-- Buffer.from with the hex encoding in Node: decode pairs left to right and stop at
the first invalid pair (an odd trailing character is likewise dropped). -/
def hexDecodeTrunc : List Char → List Nat
  | c1 :: c2 :: rest =>
      match hexPairVal c1 c2 with
      | some b => b :: hexDecodeTrunc rest
      | none => []
  | _ => []

/-- Lowercase hexadecimal rendering of a byte list. -/
def bytesToHex : List Nat → List Char
  | [] => []
  | b :: rest => byteToHexChars b ++ bytesToHex rest

/-- uuid-parse unparse for a 16 byte buffer: hexadecimal of bytes 0-3, 4-5,
6-7, 8-9 and 10-15 joined with dashes. -/
def unparseUuid (bs : List Nat) : List Char :=
  bytesToHex (bs.take 4) ++ '-' ::
    (bytesToHex ((bs.drop 4).take 2) ++ '-' ::
      (bytesToHex ((bs.drop 6).take 2) ++ '-' ::
        (bytesToHex ((bs.drop 8).take 2) ++ '-' ::
          bytesToHex ((bs.drop 10).take 6))))

/-- The composite uuidParse.unparse of the hex-decoded identifier bytes, from
plugin.js lines 340 and 354 - the toCanonical direction of the identifier
codec. -/
def uuidUnparseStr (idHex : String) : String :=
  String.mk (unparseUuid (hexDecodeTrunc (idHex.data.drop 2)))

/-- uuidToHex of transaction.js line 18 - the toLedgerId direction of the
identifier codec: the 0x marker plus the input with every dash removed, with
no validation whatsoever. -/
def uuidToHex (u : String) : String :=
  "0x" ++ String.mk (u.data.filter (fun c => c != '-'))

/-- The url-safe base64 alphabet (RFC 4648 section 5), used by the base64url
package after stripping padding. -/
def b64Char (n : Nat) : Char :=
  (("ABCDEFGHIJKLMNOPQRSTUVWXYZabcdefghijklmnopqrstuvwxyz0123456789-_" : String).data.getD n '?')

/-- base64url encoding of a byte list: unpadded url-safe base64. -/
def base64urlEncode : List Nat → List Char
  | [] => []
  | [b0] => [b64Char (b0 / 4), b64Char (b0 % 4 * 16)]
  | [b0, b1] => [b64Char (b0 / 4), b64Char (b0 % 4 * 16 + b1 / 16), b64Char (b1 % 16 * 4)]
  | b0 :: b1 :: b2 :: rest =>
      b64Char (b0 / 4) :: b64Char (b0 % 4 * 16 + b1 / 16) ::
        b64Char (b1 % 16 * 4 + b2 / 64) :: b64Char (b2 % 64) :: base64urlEncode rest

/-- base64url of the hex-decoded bytes, for a hex string already stripped
of its 0x marker, as applied to conditions, fulfillments and ilp packets. -/
def base64urlOfHex (hexPart : String) : String :=
  String.mk (base64urlEncode (hexDecodeTrunc hexPart.data))

/-! ## Date toISOString (used for the expiresAt projection) -/

/-- Civil date from a day count since 1970-01-01 (proleptic Gregorian),
returned as year, month, day. -/
def civilFromDays (z : Nat) : Nat × Nat × Nat :=
  let z2 := z + 719468
  let era := z2 / 146097
  let doe := z2 % 146097
  let yoe := (doe - doe / 1460 + doe / 36524 - doe / 146096) / 365
  let y := yoe + era * 400
  let doy := doe - (365 * yoe + yoe / 4 - yoe / 100)
  let mp := (5 * doy + 2) / 153
  let d := doy - (153 * mp + 2) / 5 + 1
  let m := if mp < 10 then mp + 3 else mp - 9
  (if m ≤ 2 then y + 1 else y, m, d)

/-- Two digit zero-padded decimal. -/
def pad2 (n : Nat) : String :=
  if n < 10 then "0" ++ toString n else toString n

/-- Four digit zero-padded decimal (all relevant years have four digits). -/
def pad4 (n : Nat) : String :=
  if n < 10 then "000" ++ toString n
  else if n < 100 then "00" ++ toString n
  else if n < 1000 then "0" ++ toString n
  else toString n

/-- new Date(seconds * 1000).toISOString() for a non-negative epoch second
count: YYYY-MM-DDTHH:MM:SS.000Z. -/
def toIsoString (secs : Nat) : String :=
  let days := secs / 86400
  let rem := secs % 86400
  let ymd := civilFromDays days
  pad4 ymd.1 ++ "-" ++ pad2 ymd.2.1 ++ "-" ++ pad2 ymd.2.2 ++ "T" ++
    pad2 (rem / 3600) ++ ":" ++ pad2 (rem % 3600 / 60) ++ ":" ++
    pad2 (rem % 60) ++ ".000Z"

/-! ## Transfer projection (plugin.js _getRddnTransfer, lines 335-374) -/

/-- stateToName, plugin.js line 12: index into the array of the three
names prepare, fulfill, abort; an out-of-range code yields the JavaScript
value undefined. -/
def stateToName (state : Nat) : JsVal :=
  match (["prepare", "fulfill", "abort"] : List String)[state]? with
  | some s => JsVal.str s
  | none => JsVal.undef

/-- directionToName, plugin.js line 15: index into the array of the two
names deposit, withdraw; an out-of-range code yields the JavaScript value
undefined. -/
def directionToName (direction : Nat) : JsVal :=
  match (["deposit", "withdraw"] : List String)[direction]? with
  | some s => JsVal.str s
  | none => JsVal.undef

/-- hexToAccount, plugin.js line 18. -/
def hexToAccount (pfx account : String) : String := pfx ++ account

/-- The zero-address sentinel compared against transfer[0]. -/
def zeroAddress : String := "0x0000000000000000000000000000000000000000"

/-- The raw escrow record returned by contract.methods.getTransfer: the
tuple entries transfer[0] through transfer[6].  The contract interface
delivers addresses and byte fields as 0x-prefixed hex strings and numbers
as decimal strings; expirySecs, stateCode and directionCode carry the
numeric values of transfer[4], transfer[5] and transfer[6] (the JavaScript
coercions + and array indexing read them numerically). -/
structure RawRecord where
  fromAddr : String
  toAddr : String
  amountStr : String
  conditionHex : String
  expirySecs : Nat
  stateCode : Nat
  directionCode : Nat
deriving DecidableEq

/-- _getRddnTransfer as a pure projection of the already fetched escrow
reads: the raw record, the moneyId from getMoneyIdByTransferId and the ilp
packet hex from getIlpPacket.  When transfer[0] is the zero address the
not-found Transfer is returned with every field empty or zero except id,
which is the unparsed form of the queried identifier; otherwise the fields
are converted as in the source. -/
def getRddnTransfer (pfx idHex : String) (record : RawRecord)
    (moneyId ilpPacketHex : String) : ProjTransfer :=
  if record.fromAddr = zeroAddress then
    { id := uuidUnparseStr idHex, fromAccount := "", toAccount := "",
      amount := JsVal.num 0, ilp := "", executionCondition := "",
      expiresAt := "", custom := CustomVal.emptyStr, state := JsVal.str "" }
  else
    { id := uuidUnparseStr idHex,
      fromAccount := hexToAccount pfx record.fromAddr,
      toAccount := hexToAccount pfx record.toAddr,
      amount := JsVal.str record.amountStr,
      ilp := base64urlOfHex (String.mk (ilpPacketHex.data.drop 2)),
      executionCondition := base64urlOfHex (String.mk (record.conditionHex.data.drop 2)),
      expiresAt := toIsoString record.expirySecs,
      custom := CustomVal.obj moneyId (directionToName record.directionCode),
      state := stateToName record.stateCode }

/-! ## Well-formed UUID strings and the identifier codec round trip -/

/-- The sixteen lowercase hexadecimal digits. -/
def lowerHexDigits : List Char := ("0123456789abcdef" : String).data

/-- Lowercase hexadecimal digit test. -/
def isLowerHexDigitB (c : Char) : Bool := decide (c ∈ lowerHexDigits)

/-- Hexadecimal digit test, either case (the digits accepted by the RFC 4122
string grammar and by the hex decoder). -/
def isHexDigitB (c : Char) : Bool := (hexVal c).isSome

/-- Shape of a UUID string: five dash-separated groups of 8, 4, 4, 4 and 12
characters, each drawn from the digit set p. -/
def uuidGroupsShape (p : Char → Bool) (u : String) : Prop :=
  ∃ g1 g2 g3 g4 g5 : List Char,
    g1.length = 8 ∧ g2.length = 4 ∧ g3.length = 4 ∧ g4.length = 4 ∧ g5.length = 12 ∧
    (∀ c ∈ g1, p c = true) ∧ (∀ c ∈ g2, p c = true) ∧ (∀ c ∈ g3, p c = true) ∧
    (∀ c ∈ g4, p c = true) ∧ (∀ c ∈ g5, p c = true) ∧
    u.data = g1 ++ '-' :: (g2 ++ '-' :: (g3 ++ '-' :: (g4 ++ '-' :: g5)))

/-- A well-formed UUID string in the sense of the RFC 4122 grammar, which is
case-insensitive on input. -/
def wellFormedUuidP (u : String) : Prop := uuidGroupsShape isHexDigitB u

/-- A canonical-form UUID string: well-formed with every hexadecimal digit
lowercase, the form produced by uuid-parse unparse. -/
def canonicalUuid (u : String) : Prop := uuidGroupsShape isLowerHexDigitB u

/-! ## Theorems for claims C2, C3, C10 -/

/-- C2: the claim says all three submission operations reclassify both the
"replacement transaction underpriced" and the "known transaction" rejection
texts as PastSequenceError.  This counterexample shows sendTransfer surfaces
a "known transaction" rejection verbatim, while rejectIncomingTransfer
reclassifies the same rejection. -/
theorem sendTransfer_known_transaction_verbatim :
    sendTransferOp true false (Except.error "known transaction") =
      ([SubmitAction.submitterCall], Except.error (PluginError.other "known transaction")) ∧
    rejectIncomingTransferOp true false (Except.error "known transaction") =
      ([SubmitAction.submitterCall], Except.error PluginError.pastSequenceError) ∧
    PluginError.other "known transaction" ≠ PluginError.pastSequenceError := by
  refine ⟨rfl, rfl, by decide⟩

/-- C2 (amended): fulfillCondition and rejectIncomingTransfer reclassify a
rejection whose text contains "replacement transaction underpriced" or
"known transaction" as PastSequenceError and surface every other rejection
verbatim; sendTransfer reclassifies only the underpriced pattern and
surfaces everything else, including "known transaction", verbatim. -/
theorem submission_error_classification (msg : String) :
    fulfillConditionCatch msg = rejectIncomingCatch msg ∧
    rejectIncomingCatch msg =
      (if strContains msg "replacement transaction underpriced"
          || strContains msg "known transaction" then
        PluginError.pastSequenceError
      else
        PluginError.other msg) ∧
    sendTransferCatch msg =
      (if strContains msg "replacement transaction underpriced" then
        PluginError.pastSequenceError
      else
        PluginError.other msg) := by
  refine ⟨rfl, ?_, rfl⟩
  by_cases h1 : strContains msg "replacement transaction underpriced" <;>
    by_cases h2 : strContains msg "known transaction" <;>
      simp [rejectIncomingCatch, h1, h2]

/-- C3: the claim says the coordinator waits a 500 ms backoff before
re-issuing after a sequence conflict.  In the code the sleep promise is
created but never awaited, so the identical call is re-issued after 0 ms;
the second conjunct confirms that a non-conflict error propagates
immediately with no retry. -/
theorem retry_backoff_not_awaited :
    retryLoop [Except.error PluginError.pastSequenceError, Except.ok ()] =
      { attempts := 2, sleepsScheduledMs := [500], awaitedBeforeRetryMs := [0],
        outcome := some (Except.ok ()) } ∧
    (∀ (msg : String) (rest : List (Except PluginError Unit)),
      retryLoop (Except.error (PluginError.other msg) :: rest) =
        { attempts := 1, sleepsScheduledMs := [], awaitedBeforeRetryMs := [],
          outcome := some (Except.error (PluginError.other msg)) }) :=
  ⟨rfl, fun _ _ => rfl⟩

/-- C10: with neither a locally owned nor an externally supplied node handle
bound, sendTransfer fails with "must be connected" before any submitter
call, while the fulfill and reject helpers perform no such precheck and
invoke the submitter directly in the same unconnected state. -/
theorem unconnected_precheck_only_sendTransfer (nodeResult : Except String Unit) :
    sendTransferOp false false nodeResult =
      ([], Except.error (PluginError.other "must be connected")) ∧
    (fulfillConditionOp false false nodeResult).1 = [SubmitAction.submitterCall] ∧
    (rejectIncomingTransferOp false false nodeResult).1 = [SubmitAction.submitterCall] := by
  refine ⟨rfl, ?_, ?_⟩ <;> cases nodeResult <;> rfl

/-- C4: connected to the primary endpoint, a failed liveness probe makes the
tick close the link, flip the active endpoint to the secondary and direct
the fresh connection attempt at the secondary; and every tick taken while
disconnected flips the active endpoint between primary and secondary before
attempting reconnection at the flipped endpoint. -/
theorem heartbeat_failover (s : HeartbeatState) :
    (s.web3Bound = true → s.provider = s.primaryProvider →
      heartbeatTick s false =
        ({ s with provider := s.secondaryProvider, web3Bound := false },
          some s.secondaryProvider)) ∧
    (s.web3Bound = false → ∀ livenessOk : Bool,
      (s.provider = s.primaryProvider →
        heartbeatTick s livenessOk =
          ({ s with provider := s.secondaryProvider }, some s.secondaryProvider)) ∧
      (s.provider ≠ s.primaryProvider →
        heartbeatTick s livenessOk =
          ({ s with provider := s.primaryProvider }, some s.primaryProvider))) := by
  constructor
  · intro hw hp
    simp [heartbeatTick, flipProvider, hw, hp]
  · intro hw livenessOk
    constructor <;> intro hp <;> simp [heartbeatTick, flipProvider, hw, hp]

/-- C4 witness: the failover theorem applied to concrete states, one
connected to the primary endpoint with a failing liveness probe and one
disconnected at each endpoint. -/
theorem heartbeat_failover_witness :
    heartbeatTick ⟨"ws-p1", "ws-p2", "ws-p1", true⟩ false =
      (⟨"ws-p1", "ws-p2", "ws-p2", false⟩, some "ws-p2") ∧
    heartbeatTick ⟨"ws-p1", "ws-p2", "ws-p1", false⟩ true =
      (⟨"ws-p1", "ws-p2", "ws-p2", false⟩, some "ws-p2") ∧
    heartbeatTick ⟨"ws-p1", "ws-p2", "ws-p2", false⟩ true =
      (⟨"ws-p1", "ws-p2", "ws-p1", false⟩, some "ws-p1") := by
  refine ⟨?_, ?_, ?_⟩
  · exact (heartbeat_failover ⟨"ws-p1", "ws-p2", "ws-p1", true⟩).1 rfl rfl
  · exact ((heartbeat_failover ⟨"ws-p1", "ws-p2", "ws-p1", false⟩).2 rfl true).1 rfl
  · exact ((heartbeat_failover ⟨"ws-p1", "ws-p2", "ws-p2", false⟩).2 rfl true).2 (by decide)

/-- C1 (amended): _processUpdate dispatches exactly as dispatchSpec
describes, for every self account, address prefix, Transfer and
fulfillment argument. -/
theorem processUpdate_eq_dispatchSpec (self pfx : String) (t : ProjTransfer)
    (fulfillment : Option String) :
    processUpdate self pfx t fulfillment = dispatchSpec self pfx t fulfillment := by
  unfold processUpdate dispatchSpec
  by_cases hto : t.toAccount = self <;>
    by_cases hfrom : t.fromAccount = self <;>
      by_cases hst : t.state = JsVal.str "fulfill" <;>
        simp [hto, hfrom, hst, jsValToStr]

/-- C1 counterexample: the claim says a Transfer whose from endpoint equals
the self account yields an outgoing_{state} event, but when both endpoints
equal the self account the code emits incoming_{state}, because the to
check overwrites the direction chosen by the from check. -/
theorem dispatch_both_endpoints_incoming :
    let self := "g.rddn.0xaaaa"
    let t : ProjTransfer :=
      { id := "f55585e1-0c19-4588-832d-369cfa005640", fromAccount := "g.rddn.0xaaaa",
        toAccount := "g.rddn.0xaaaa", amount := JsVal.str "10", ilp := "",
        executionCondition := "", expiresAt := "", custom := CustomVal.emptyStr,
        state := JsVal.str "prepare" }
    t.fromAccount = self ∧
    (processUpdate self "g.rddn." t none).map Emit.name = ["incoming_prepare"] ∧
    ("incoming_prepare" : String) ≠ "outgoing_prepare" := by
  refine ⟨rfl, rfl, by decide⟩

/-- C9: the claim says forceEmitPrepare returns true and emits on a
directional match and returns false without emitting when no match is
found.  The code instead throws ReferenceError whenever either strict
endpoint comparison fails, because the lodash identifier `_` it then
evaluates is never bound: shown here for a third-party transfer (claim
expects false) and for an outgoing transfer from the self account (claim
expects true with outgoing_prepare). -/
theorem forceEmitPrepare_unbound_identifier :
    forceEmitPrepareOp "g.rddn.0xaaaa"
      { id := "f55585e1-0c19-4588-832d-369cfa005640", fromAccount := "g.rddn.0xbbbb",
        toAccount := "g.rddn.0xcccc", amount := JsVal.str "10", ilp := "",
        executionCondition := "", expiresAt := "", custom := CustomVal.emptyStr,
        state := JsVal.str "prepare" } =
      Except.error (JsRuntimeError.referenceError "_") ∧
    forceEmitPrepareOp "g.rddn.0xaaaa"
      { id := "f55585e1-0c19-4588-832d-369cfa005640", fromAccount := "g.rddn.0xaaaa",
        toAccount := "g.rddn.0xcccc", amount := JsVal.str "10", ilp := "",
        executionCondition := "", expiresAt := "", custom := CustomVal.emptyStr,
        state := JsVal.str "prepare" } =
      Except.error (JsRuntimeError.referenceError "_") ∧
    forceEmitPrepareOp "g.rddn.0xaaaa"
      { id := "f55585e1-0c19-4588-832d-369cfa005640", fromAccount := "g.rddn.0xaaaa",
        toAccount := "g.rddn.0xaaaa", amount := JsVal.str "10", ilp := "",
        executionCondition := "", expiresAt := "", custom := CustomVal.emptyStr,
        state := JsVal.str "prepare" } =
      Except.ok (true,
        [⟨"incoming_prepare",
          { id := "f55585e1-0c19-4588-832d-369cfa005640", fromAccount := "g.rddn.0xaaaa",
            toAccount := "g.rddn.0xaaaa", amount := JsVal.str "10", ilp := "",
            executionCondition := "", expiresAt := "", custom := CustomVal.emptyStr,
            state := JsVal.str "prepare", direction := some "incoming" }, none, none⟩]) := by
  refine ⟨rfl, rfl, rfl⟩

/-! ## Theorems for claims C5 and C8 -/

/-- C5 counterexample: the claim says the not-found projection has all
numeric and string fields empty or zero, but the id field is populated with
the canonical UUID form of the queried identifier and is not empty. -/
theorem notFound_transfer_id_not_empty :
    (getRddnTransfer "g.rddn." "0xf55585e10c194588832d369cfa005640"
        { fromAddr := "0x0000000000000000000000000000000000000000",
          toAddr := "0x2222222222222222222222222222222222222222",
          amountStr := "5", conditionHex := "0xabcd", expirySecs := 0,
          stateCode := 0, directionCode := 0 } "JPY-1" "0x").id =
      "f55585e1-0c19-4588-832d-369cfa005640" ∧
    ("f55585e1-0c19-4588-832d-369cfa005640" : String) ≠ "" := by
  refine ⟨rfl, by decide⟩

/-- C5 (amended): for every raw record whose from field is the zero-address
sentinel the projection returns, without failing, the not-found Transfer:
state is the empty string and every field is empty or zero except id, which
carries the canonical UUID form of the queried identifier. -/
theorem getRddnTransfer_zero_address (pfx idHex : String) (record : RawRecord)
    (moneyId ilpPacketHex : String) (h : record.fromAddr = zeroAddress) :
    getRddnTransfer pfx idHex record moneyId ilpPacketHex =
      { id := uuidUnparseStr idHex, fromAccount := "", toAccount := "",
        amount := JsVal.num 0, ilp := "", executionCondition := "",
        expiresAt := "", custom := CustomVal.emptyStr,
        state := JsVal.str "" } := by
  simp [getRddnTransfer, h]

/-- C5 witness: the zero-address theorem applied to a concrete record. -/
theorem getRddnTransfer_zero_address_witness :
    getRddnTransfer "g.rddn." "0xf55585e10c194588832d369cfa005640"
        { fromAddr := "0x0000000000000000000000000000000000000000",
          toAddr := "0x2222222222222222222222222222222222222222",
          amountStr := "5", conditionHex := "0xabcd", expirySecs := 1500000000,
          stateCode := 1, directionCode := 1 } "JPY-1" "0x0123" =
      { id := uuidUnparseStr "0xf55585e10c194588832d369cfa005640",
        fromAccount := "", toAccount := "", amount := JsVal.num 0, ilp := "",
        executionCondition := "", expiresAt := "", custom := CustomVal.emptyStr,
        state := JsVal.str "" } :=
  getRddnTransfer_zero_address "g.rddn." "0xf55585e10c194588832d369cfa005640"
    { fromAddr := "0x0000000000000000000000000000000000000000",
      toAddr := "0x2222222222222222222222222222222222222222",
      amountStr := "5", conditionHex := "0xabcd", expirySecs := 1500000000,
      stateCode := 1, directionCode := 1 } "JPY-1" "0x0123" rfl

/-- An out-of-range state code indexes past the lookup array and yields the
JavaScript value undefined. -/
theorem stateToName_out_of_range (n : Nat) (h : 3 ≤ n) :
    stateToName n = JsVal.undef := by
  obtain ⟨k, rfl⟩ : ∃ k, n = k + 3 := ⟨n - 3, by omega⟩
  rfl

/-- An out-of-range direction code indexes past the lookup array and yields
the JavaScript value undefined. -/
theorem directionToName_out_of_range (n : Nat) (h : 2 ≤ n) :
    directionToName n = JsVal.undef := by
  obtain ⟨k, rfl⟩ : ∃ k, n = k + 2 := ⟨n - 2, by omega⟩
  rfl

/-- C8 counterexample: the claim says a state code outside the range 0-2 or
a direction code outside 0-1 raises a fatal ProtocolMismatch; the code has
no such error and instead produces a Transfer whose state name and
custom.direction name are the JavaScript value undefined. -/
theorem projection_out_of_range_undefined :
    (getRddnTransfer "g.rddn." "0xf55585e10c194588832d369cfa005640"
        { fromAddr := "0x1111111111111111111111111111111111111111",
          toAddr := "0x2222222222222222222222222222222222222222",
          amountStr := "5", conditionHex := "0x", expirySecs := 0,
          stateCode := 3, directionCode := 2 } "JPY-1" "0x").state =
      JsVal.undef ∧
    (getRddnTransfer "g.rddn." "0xf55585e10c194588832d369cfa005640"
        { fromAddr := "0x1111111111111111111111111111111111111111",
          toAddr := "0x2222222222222222222222222222222222222222",
          amountStr := "5", conditionHex := "0x", expirySecs := 0,
          stateCode := 3, directionCode := 2 } "JPY-1" "0x").custom =
      CustomVal.obj "JPY-1" JsVal.undef := by
  refine ⟨rfl, rfl⟩

/-- C8 (amended): during projection of a record that is present (from is not
the zero address), a state code outside 0-2 yields a Transfer whose state is
the undefined value, and a direction code outside 0-1 yields
custom.direction undefined; no error is raised in either case. -/
theorem projection_out_of_range_codes (pfx idHex : String) (record : RawRecord)
    (moneyId ilpPacketHex : String) (hz : record.fromAddr ≠ zeroAddress) :
    (3 ≤ record.stateCode →
      (getRddnTransfer pfx idHex record moneyId ilpPacketHex).state = JsVal.undef) ∧
    (2 ≤ record.directionCode →
      (getRddnTransfer pfx idHex record moneyId ilpPacketHex).custom =
        CustomVal.obj moneyId JsVal.undef) := by
  constructor
  · intro h
    simp [getRddnTransfer, hz, stateToName_out_of_range record.stateCode h]
  · intro h
    simp [getRddnTransfer, hz, directionToName_out_of_range record.directionCode h]

/-- C8 witness: the out-of-range theorem applied to a concrete record with
state code 4 and direction code 3. -/
theorem projection_out_of_range_codes_witness :
    (getRddnTransfer "g.rddn." "0xf55585e10c194588832d369cfa005640"
        { fromAddr := "0x1111111111111111111111111111111111111111",
          toAddr := "0x2222222222222222222222222222222222222222",
          amountStr := "5", conditionHex := "0x", expirySecs := 0,
          stateCode := 4, directionCode := 3 } "JPY-1" "0x").state =
      JsVal.undef ∧
    (getRddnTransfer "g.rddn." "0xf55585e10c194588832d369cfa005640"
        { fromAddr := "0x1111111111111111111111111111111111111111",
          toAddr := "0x2222222222222222222222222222222222222222",
          amountStr := "5", conditionHex := "0x", expirySecs := 0,
          stateCode := 4, directionCode := 3 } "JPY-1" "0x").custom =
      CustomVal.obj "JPY-1" JsVal.undef := by
  have h := projection_out_of_range_codes "g.rddn." "0xf55585e10c194588832d369cfa005640"
    { fromAddr := "0x1111111111111111111111111111111111111111",
      toAddr := "0x2222222222222222222222222222222222222222",
      amountStr := "5", conditionHex := "0x", expirySecs := 0,
      stateCode := 4, directionCode := 3 } "JPY-1" "0x" (by decide)
  exact ⟨h.1 (by decide), h.2 (by decide)⟩

/-! ### Helper lemmas about hexadecimal digits and dash stripping -/

/-- Membership form of the lowercase digit test. -/
theorem mem_of_isLowerHexDigitB {c : Char} (h : isLowerHexDigitB c = true) :
    c ∈ lowerHexDigits := of_decide_eq_true h

/-- Digit round trip holds for each of the sixteen lowercase digits. -/
theorem hexRoundOk_lowerHex : ∀ c ∈ lowerHexDigits, hexRoundOk c = true := by decide

/-- A lowercase hexadecimal pair decodes to a byte whose lowercase rendering
is the original pair. -/
theorem hexPair_round (c1 c2 : Char) (h1 : isLowerHexDigitB c1 = true)
    (h2 : isLowerHexDigitB c2 = true) :
    ∃ b, hexPairVal c1 c2 = some b ∧ byteToHexChars b = [c1, c2] := by
  have k1 := hexRoundOk_lowerHex c1 (of_decide_eq_true h1)
  have k2 := hexRoundOk_lowerHex c2 (of_decide_eq_true h2)
  unfold hexRoundOk at k1 k2
  cases hv1 : hexVal c1 with
  | none => rw [hv1] at k1; simp at k1
  | some n1 =>
    cases hv2 : hexVal c2 with
    | none => rw [hv2] at k2; simp at k2
    | some n2 =>
      rw [hv1] at k1
      rw [hv2] at k2
      simp only [Option.map_some', Option.getD_some, Bool.and_eq_true,
        beq_iff_eq, decide_eq_true_eq, Option.some.injEq] at k1 k2
      obtain ⟨hc1, hn1⟩ := k1
      obtain ⟨hc2, hn2⟩ := k2
      refine ⟨16 * n1 + n2, by simp [hexPairVal, hv1, hv2], ?_⟩
      have hdiv : (16 * n1 + n2) / 16 = n1 := by omega
      have hmod : (16 * n1 + n2) % 16 = n2 := by omega
      simp [byteToHexChars, hdiv, hmod, hc1, hc2]

/-- A lowercase hexadecimal digit is not a dash. -/
theorem lowerHex_ne_dash (c : Char) (h : isLowerHexDigitB c = true) :
    (c != '-') = true := by
  rcases eq_or_ne c '-' with rfl | hne
  · exact absurd h (by decide)
  · simpa using hne

/-- A hexadecimal digit of either case is not a dash. -/
theorem hexDigit_ne_dash (c : Char) (h : isHexDigitB c = true) :
    (c != '-') = true := by
  rcases eq_or_ne c '-' with rfl | hne
  · exact absurd h (by decide)
  · simpa using hne

/-- Dash filtering keeps a list of digits intact. -/
theorem filter_ne_dash_eq_self {g : List Char} (p : Char → Bool)
    (hp : ∀ c, p c = true → (c != '-') = true) (hg : ∀ c ∈ g, p c = true) :
    g.filter (fun c => c != '-') = g :=
  List.filter_eq_self.mpr (fun a ha => hp a (hg a ha))

/-- Dash filtering of a five-group UUID character list yields the
concatenation of the groups. -/
theorem strip_dashes (p : Char → Bool)
    (hp : ∀ c, p c = true → (c != '-') = true) (g1 g2 g3 g4 g5 : List Char)
    (h1 : ∀ c ∈ g1, p c = true) (h2 : ∀ c ∈ g2, p c = true)
    (h3 : ∀ c ∈ g3, p c = true) (h4 : ∀ c ∈ g4, p c = true)
    (h5 : ∀ c ∈ g5, p c = true) :
    (g1 ++ '-' :: (g2 ++ '-' :: (g3 ++ '-' :: (g4 ++ '-' :: g5)))).filter
        (fun c => c != '-') =
      g1 ++ (g2 ++ (g3 ++ (g4 ++ g5))) := by
  simp [List.filter_append, List.filter_cons,
    filter_ne_dash_eq_self p hp h1, filter_ne_dash_eq_self p hp h2,
    filter_ne_dash_eq_self p hp h3, filter_ne_dash_eq_self p hp h4,
    filter_ne_dash_eq_self p hp h5]

/-- Length of the lowercase hexadecimal rendering. -/
theorem bytesToHex_length : ∀ bs : List Nat, (bytesToHex bs).length = 2 * bs.length
  | [] => rfl
  | b :: rest => by
      simp [bytesToHex, byteToHexChars, List.length_append, bytesToHex_length rest]
      omega

/-- Hex decoding distributes over an append whose first part is an even
number of lowercase digits. -/
theorem hexDecodeTrunc_append : ∀ l1 l2 : List Char,
    (∀ c ∈ l1, isLowerHexDigitB c = true) → l1.length % 2 = 0 →
    hexDecodeTrunc (l1 ++ l2) = hexDecodeTrunc l1 ++ hexDecodeTrunc l2
  | [], _, _, _ => by simp [hexDecodeTrunc]
  | [c], _, _, hlen => by simp at hlen
  | c1 :: c2 :: rest, l2, hall, hlen => by
      obtain ⟨b, hb, -⟩ := hexPair_round c1 c2 (hall c1 (by simp)) (hall c2 (by simp))
      have ih := hexDecodeTrunc_append rest l2
        (fun c hc => hall c (by simp [hc]))
        (by simp only [List.length_cons] at hlen ⊢; omega)
      simp [hexDecodeTrunc, hb, ih]

/-- Re-encoding the decoded bytes of an even lowercase hexadecimal character
list restores the list. -/
theorem bytesToHex_hexDecodeTrunc : ∀ l : List Char,
    (∀ c ∈ l, isLowerHexDigitB c = true) → l.length % 2 = 0 →
    bytesToHex (hexDecodeTrunc l) = l
  | [], _, _ => rfl
  | [c], _, hlen => by simp at hlen
  | c1 :: c2 :: rest, hall, hlen => by
      obtain ⟨b, hb, hbc⟩ := hexPair_round c1 c2 (hall c1 (by simp)) (hall c2 (by simp))
      have ih := bytesToHex_hexDecodeTrunc rest
        (fun c hc => hall c (by simp [hc]))
        (by simp only [List.length_cons] at hlen ⊢; omega)
      simp [hexDecodeTrunc, hb, bytesToHex, hbc, ih]

/-- Rebuilding a string from its character list is the identity. -/
theorem string_mk_data (s : String) : String.mk s.data = s := rfl

/-! ### Theorems for claims C6 and C7 -/

/-- C6 (amended): for every canonical-form (lowercase) UUID string the
identifier codec round trip is the identity: unparsing the hex-decoded
bytes of uuidToHex of the string restores the string. -/
theorem uuid_roundtrip (u : String) (h : canonicalUuid u) :
    uuidUnparseStr (uuidToHex u) = u := by
  obtain ⟨g1, g2, g3, g4, g5, l1, l2, l3, l4, l5, h1, h2, h3, h4, h5, hu⟩ := h
  have hfil : u.data.filter (fun c => c != '-') = g1 ++ (g2 ++ (g3 ++ (g4 ++ g5))) := by
    rw [hu]
    exact strip_dashes isLowerHexDigitB lowerHex_ne_dash g1 g2 g3 g4 g5 h1 h2 h3 h4 h5
  have r1 := bytesToHex_hexDecodeTrunc g1 h1 (by simp [l1])
  have r2 := bytesToHex_hexDecodeTrunc g2 h2 (by simp [l2])
  have r3 := bytesToHex_hexDecodeTrunc g3 h3 (by simp [l3])
  have r4 := bytesToHex_hexDecodeTrunc g4 h4 (by simp [l4])
  have r5 := bytesToHex_hexDecodeTrunc g5 h5 (by simp [l5])
  have n1 : (hexDecodeTrunc g1).length = 4 := by
    have hx := congrArg List.length r1
    rw [bytesToHex_length, l1] at hx; omega
  have n2 : (hexDecodeTrunc g2).length = 2 := by
    have hx := congrArg List.length r2
    rw [bytesToHex_length, l2] at hx; omega
  have n3 : (hexDecodeTrunc g3).length = 2 := by
    have hx := congrArg List.length r3
    rw [bytesToHex_length, l3] at hx; omega
  have n4 : (hexDecodeTrunc g4).length = 2 := by
    have hx := congrArg List.length r4
    rw [bytesToHex_length, l4] at hx; omega
  have n5 : (hexDecodeTrunc g5).length = 6 := by
    have hx := congrArg List.length r5
    rw [bytesToHex_length, l5] at hx; omega
  have hd : hexDecodeTrunc (g1 ++ (g2 ++ (g3 ++ (g4 ++ g5)))) =
      hexDecodeTrunc g1 ++ (hexDecodeTrunc g2 ++ (hexDecodeTrunc g3 ++
        (hexDecodeTrunc g4 ++ hexDecodeTrunc g5))) := by
    rw [hexDecodeTrunc_append g1 _ h1 (by simp [l1]),
      hexDecodeTrunc_append g2 _ h2 (by simp [l2]),
      hexDecodeTrunc_append g3 _ h3 (by simp [l3]),
      hexDecodeTrunc_append g4 _ h4 (by simp [l4])]
  show String.mk (unparseUuid (hexDecodeTrunc (u.data.filter (fun c => c != '-')))) = u
  rw [hfil, hd]
  have t4 : (hexDecodeTrunc g1 ++ (hexDecodeTrunc g2 ++ (hexDecodeTrunc g3 ++
      (hexDecodeTrunc g4 ++ hexDecodeTrunc g5)))).take 4 = hexDecodeTrunc g1 :=
    List.take_left' n1
  have d4 : (hexDecodeTrunc g1 ++ (hexDecodeTrunc g2 ++ (hexDecodeTrunc g3 ++
      (hexDecodeTrunc g4 ++ hexDecodeTrunc g5)))).drop 4 =
      hexDecodeTrunc g2 ++ (hexDecodeTrunc g3 ++ (hexDecodeTrunc g4 ++ hexDecodeTrunc g5)) :=
    List.drop_left' n1
  have d6 : (hexDecodeTrunc g1 ++ (hexDecodeTrunc g2 ++ (hexDecodeTrunc g3 ++
      (hexDecodeTrunc g4 ++ hexDecodeTrunc g5)))).drop 6 =
      hexDecodeTrunc g3 ++ (hexDecodeTrunc g4 ++ hexDecodeTrunc g5) := by
    rw [show hexDecodeTrunc g1 ++ (hexDecodeTrunc g2 ++ (hexDecodeTrunc g3 ++
        (hexDecodeTrunc g4 ++ hexDecodeTrunc g5))) =
        (hexDecodeTrunc g1 ++ hexDecodeTrunc g2) ++ (hexDecodeTrunc g3 ++
          (hexDecodeTrunc g4 ++ hexDecodeTrunc g5)) from by simp [List.append_assoc]]
    exact List.drop_left' (by simp [List.length_append, n1, n2])
  have d8 : (hexDecodeTrunc g1 ++ (hexDecodeTrunc g2 ++ (hexDecodeTrunc g3 ++
      (hexDecodeTrunc g4 ++ hexDecodeTrunc g5)))).drop 8 =
      hexDecodeTrunc g4 ++ hexDecodeTrunc g5 := by
    rw [show hexDecodeTrunc g1 ++ (hexDecodeTrunc g2 ++ (hexDecodeTrunc g3 ++
        (hexDecodeTrunc g4 ++ hexDecodeTrunc g5))) =
        ((hexDecodeTrunc g1 ++ hexDecodeTrunc g2) ++ hexDecodeTrunc g3) ++
          (hexDecodeTrunc g4 ++ hexDecodeTrunc g5) from by simp [List.append_assoc]]
    exact List.drop_left' (by simp [List.length_append, n1, n2, n3])
  have d10 : (hexDecodeTrunc g1 ++ (hexDecodeTrunc g2 ++ (hexDecodeTrunc g3 ++
      (hexDecodeTrunc g4 ++ hexDecodeTrunc g5)))).drop 10 = hexDecodeTrunc g5 := by
    rw [show hexDecodeTrunc g1 ++ (hexDecodeTrunc g2 ++ (hexDecodeTrunc g3 ++
        (hexDecodeTrunc g4 ++ hexDecodeTrunc g5))) =
        (((hexDecodeTrunc g1 ++ hexDecodeTrunc g2) ++ hexDecodeTrunc g3) ++
          hexDecodeTrunc g4) ++ hexDecodeTrunc g5 from by simp [List.append_assoc]]
    exact List.drop_left' (by simp [List.length_append, n1, n2, n3, n4])
  have t42 : (hexDecodeTrunc g2 ++ (hexDecodeTrunc g3 ++ (hexDecodeTrunc g4 ++
      hexDecodeTrunc g5))).take 2 = hexDecodeTrunc g2 := List.take_left' n2
  have t62 : (hexDecodeTrunc g3 ++ (hexDecodeTrunc g4 ++ hexDecodeTrunc g5)).take 2 =
      hexDecodeTrunc g3 := List.take_left' n3
  have t82 : (hexDecodeTrunc g4 ++ hexDecodeTrunc g5).take 2 = hexDecodeTrunc g4 :=
    List.take_left' n4
  have t106 : (hexDecodeTrunc g5).take 6 = hexDecodeTrunc g5 := by
    rw [← n5]; exact List.take_length _
  have hunp : unparseUuid (hexDecodeTrunc g1 ++ (hexDecodeTrunc g2 ++
      (hexDecodeTrunc g3 ++ (hexDecodeTrunc g4 ++ hexDecodeTrunc g5)))) =
      g1 ++ '-' :: (g2 ++ '-' :: (g3 ++ '-' :: (g4 ++ '-' :: g5))) := by
    unfold unparseUuid
    rw [t4, d4, t42, d6, t62, d8, t82, d10, t106, r1, r2, r3, r4, r5]
  rw [hunp, ← hu, string_mk_data]

/-- C6 witness: the round trip theorem applied to a concrete lowercase
canonical UUID. -/
theorem uuid_roundtrip_witness :
    canonicalUuid "f55585e1-0c19-4588-832d-369cfa005640" ∧
    uuidUnparseStr (uuidToHex "f55585e1-0c19-4588-832d-369cfa005640") =
      "f55585e1-0c19-4588-832d-369cfa005640" := by
  have hc : canonicalUuid "f55585e1-0c19-4588-832d-369cfa005640" :=
    ⟨("f55585e1" : String).data, ("0c19" : String).data, ("4588" : String).data,
      ("832d" : String).data, ("369cfa005640" : String).data,
      by decide, by decide, by decide, by decide, by decide,
      by decide, by decide, by decide, by decide, by decide, by decide⟩
  exact ⟨hc, uuid_roundtrip "f55585e1-0c19-4588-832d-369cfa005640" hc⟩

/-- C6 counterexample: an uppercase UUID is well-formed per the RFC 4122
grammar, yet the round trip returns its lowercase form, not the input. -/
theorem uuid_roundtrip_uppercase_fails :
    wellFormedUuidP "F55585E1-0C19-4588-832D-369CFA005640" ∧
    uuidUnparseStr (uuidToHex "F55585E1-0C19-4588-832D-369CFA005640") =
      "f55585e1-0c19-4588-832d-369cfa005640" ∧
    ("f55585e1-0c19-4588-832d-369cfa005640" : String) ≠
      "F55585E1-0C19-4588-832D-369CFA005640" := by
  refine ⟨⟨("F55585E1" : String).data, ("0C19" : String).data, ("4588" : String).data,
    ("832D" : String).data, ("369CFA005640" : String).data,
    by decide, by decide, by decide, by decide, by decide,
    by decide, by decide, by decide, by decide, by decide, by decide⟩, rfl, by decide⟩

/-- C7 (amended): uuidToHex performs no validation and cannot fail: for
every input string it returns the 0x marker followed by the input with all
dashes removed; when the input is a well-formed UUID the result consists of
the marker plus exactly 32 hexadecimal digits (34 characters). -/
theorem uuidToHex_no_validation (u : String) :
    (uuidToHex u).data = '0' :: 'x' :: (u.data.filter (fun c => c != '-')) ∧
    (wellFormedUuidP u →
      (uuidToHex u).data.length = 34 ∧
      ∀ c ∈ (uuidToHex u).data.drop 2, isHexDigitB c = true) := by
  refine ⟨rfl, fun h => ?_⟩
  obtain ⟨g1, g2, g3, g4, g5, l1, l2, l3, l4, l5, h1, h2, h3, h4, h5, hu⟩ := h
  have hfil : u.data.filter (fun c => c != '-') = g1 ++ (g2 ++ (g3 ++ (g4 ++ g5))) := by
    rw [hu]
    exact strip_dashes isHexDigitB hexDigit_ne_dash g1 g2 g3 g4 g5 h1 h2 h3 h4 h5
  constructor
  · show ('0' :: 'x' :: (u.data.filter (fun c => c != '-'))).length = 34
    rw [hfil]
    simp [List.length_append, l1, l2, l3, l4, l5]
  · show ∀ c ∈ u.data.filter (fun c => c != '-'), isHexDigitB c = true
    rw [hfil]
    intro c hc
    simp only [List.mem_append] at hc
    rcases hc with hc | hc | hc | hc | hc
    · exact h1 c hc
    · exact h2 c hc
    · exact h3 c hc
    · exact h4 c hc
    · exact h5 c hc

/-- C7 witness: the theorem applied to a concrete well-formed UUID. -/
theorem uuidToHex_no_validation_witness :
    wellFormedUuidP "f55585e1-0c19-4588-832d-369cfa005640" ∧
    (uuidToHex "f55585e1-0c19-4588-832d-369cfa005640").data.length = 34 := by
  have hp : wellFormedUuidP "f55585e1-0c19-4588-832d-369cfa005640" :=
    ⟨("f55585e1" : String).data, ("0c19" : String).data, ("4588" : String).data,
      ("832d" : String).data, ("369cfa005640" : String).data,
      by decide, by decide, by decide, by decide, by decide,
      by decide, by decide, by decide, by decide, by decide, by decide⟩
  exact ⟨hp, ((uuidToHex_no_validation "f55585e1-0c19-4588-832d-369cfa005640").2 hp).1⟩

/-- C7 counterexample: the claim says a malformed input fails with
MalformedIdentifier, but uuidToHex simply strips the dashes of the
malformed input and prefixes the marker, producing an identifier with no
error at all. -/
theorem uuidToHex_accepts_malformed :
    ¬ wellFormedUuidP "not-a-uuid" ∧ uuidToHex "not-a-uuid" = "0xnotauuid" := by
  constructor
  · rintro ⟨g1, g2, g3, g4, g5, l1, l2, l3, l4, l5, -, -, -, -, -, hu⟩
    have hlen := congrArg List.length hu
    have hL : ("not-a-uuid" : String).data.length = 10 := rfl
    rw [hL] at hlen
    simp [List.length_append, List.length_cons, l1, l2, l3, l4, l5] at hlen
  · rfl

end RddnPlugin
